import Mathlib

/-!
Verification development for the arogya-ai-lang edge server.

The repository contains two variants of the same Express server:
`src/server.js` and `src/unnamed/part_000` (an earlier/alternate copy of
`server.js`).  Both serve a SPA bundle, a `/api/health` endpoint and an
`/api/keys` credential-distribution endpoint behind helmet, two
express-rate-limit tiers, compression and a static file server.  This file
shallowly embeds the request-handling logic of both variants and proves the
specification claims about them.
-/

namespace ArogyaAI

/-! ## Basic string machinery (JS string semantics over lists of characters) -/

/-- JS `String.prototype.startsWith` - membership as a prefix, on character lists. -/
def strStartsWith (s p : String) : Bool :=
  List.isPrefixOf p.toList s.toList

/-- Helper for substring search: does `sub` occur as an infix of the character list? -/
def listContains (sub : List Char) : List Char → Bool
  | [] => sub.isEmpty
  | c :: rest => List.isPrefixOf sub (c :: rest) || listContains sub rest

/-- JS `String.prototype.includes` - substring containment. -/
def strIncludes (s sub : String) : Bool :=
  listContains sub.toList s.toList

/-- The host part of an Origin header value: strip the scheme, keep up to the
first slash.  Used only to state that an accepted origin's host is not an
allow-listed domain. -/
def hostOf (origin : String) : String :=
  let cs := origin.toList
  let rest :=
    if List.isPrefixOf ("https://").toList cs then cs.drop 8
    else if List.isPrefixOf ("http://").toList cs then cs.drop 7
    else cs
  String.mk (rest.takeWhile (fun c => c ≠ '/'))

/-! ## Environment-sourced configuration -/

/-- The three credential environment variables.  `some s` models a set variable
with value `s`, `none` an unset one. -/
structure CredConfig where
  groqApiKey : Option String
  perplexityApiKey : Option String
  geminiApiKey : Option String
  deriving DecidableEq, Repr

/-- JS truthiness of an optional string environment variable: unset and the
empty string are falsy. -/
def envTruthy : Option String → Bool
  | none => false
  | some s => !s.toList.isEmpty

/-- `process.env.X ? process.env.X : ''` in src/server.js lines 163-165, and
`process.env.X || ''` in src/unnamed/part_000 lines 142-144: both produce the
configured value when truthy and the empty string otherwise. -/
def envOrEmpty (v : Option String) : String :=
  if envTruthy v then v.getD "" else ""

/-- `process.env.NODE_ENV === 'production'` (src/server.js lines 149, 169). -/
def isProduction (nodeEnv : Option String) : Bool :=
  nodeEnv = some "production"

/-! ## Responses and log output -/

/-- JSON response bodies produced by the server's dynamic handlers. -/
inductive Body where
  /-- A body with a single `error` field. -/
  | errorOnly (error : String)
  /-- A body with an `error` field and a `retryAfter` field
  (the configured limiter messages in src/server.js lines 105-108 and 116-119). -/
  | errorRetry (error : String) (retryAfter : String)
  /-- A body with an `error` field and a `message` field
  (the terminal error handler, src/server.js lines 187-190). -/
  | errorMessage (error : String) (message : String)
  /-- The credential body of `/api/keys`: exactly the three named fields. -/
  | keys (groq : String) (perplexity : String) (gemini : String)
  deriving DecidableEq, Repr

/-- The `retryAfter` field of a body, when present. -/
def bodyRetryAfter : Body → Option String
  | Body.errorRetry _ r => some r
  | _ => none

/-- An HTTP response: status code and JSON body. -/
structure Response where
  status : Nat
  body : Body
  deriving DecidableEq, Repr

/-- Console output emitted by the `/api/keys` handler: the audit line carries
the requesting address and one boolean presence flag per credential - never the
raw values (src/server.js lines 170-174, src/unnamed/part_000 lines 148-153). -/
inductive LogEntry where
  | audit (ip : String) (groqPresent : Bool) (perplexityPresent : Bool)
      (geminiPresent : Bool)
  deriving DecidableEq, Repr

/-- The per-credential presence pattern of a configuration, as logged. -/
def presencePattern (cfg : CredConfig) : Bool × Bool × Bool :=
  (envTruthy cfg.groqApiKey, envTruthy cfg.perplexityApiKey,
   envTruthy cfg.geminiApiKey)

/-! ## Origin validation, both variants -/

/-- src/server.js line 151: `origin.match(/^https?:\/\/(localhost|arogya-ai\.vercel\.app)/)`.
The regex is anchored only at the start, so it holds exactly when the origin
begins with one of four literal prefixes. -/
def originMatchServer (origin : String) : Bool :=
  strStartsWith origin "http://localhost" || strStartsWith origin "https://localhost" ||
  strStartsWith origin "http://arogya-ai.vercel.app" ||
  strStartsWith origin "https://arogya-ai.vercel.app"

/-- src/server.js line 151 condition `!origin || !origin.match(...)`, stated
positively: an absent Origin header never passes, a present one passes when it
matches the regex. -/
def serverOriginOk : Option String → Bool
  | none => false
  | some o => originMatchServer o

/-- src/unnamed/part_000 line 134: the allow-list entries. -/
def allowedOrigins : List String :=
  ["localhost", "arogya-ai.vercel.app", "render.com"]

/-- The two host literals that occur in the src/server.js origin regex. -/
def serverAllowListHosts : List String :=
  ["localhost", "arogya-ai.vercel.app"]

/-- src/unnamed/part_000 lines 135-137: `origin = req.get('origin') || ''` and
`allowedOrigins.some(allowed => origin.includes(allowed))`. -/
def partOriginOk (origin : Option String) : Bool :=
  allowedOrigins.any (fun allowed => strIncludes (origin.getD "") allowed)

/-! ## The `/api/keys` handlers -/

/-- The request data the src/server.js `/api/keys` handler inspects: the Origin
header, the client address, and `req.rateLimit.remaining` as set by the
express-rate-limit middleware (`none` when the middleware did not run). -/
structure KeysRequest where
  origin : Option String
  ip : String
  rateLimitRemaining : Option Nat
  deriving DecidableEq, Repr

/-- src/server.js lines 146-182: the `/api/keys` handler.  In production an
absent or non-matching Origin is answered 403 before any other work; a
request the limiter counted down to zero remaining is answered 429; otherwise
the three credentials are assembled (empty string when unset), an audit line
with presence booleans is logged in production, and the keys are returned. -/
def keysHandlerServer (production : Bool) (cfg : CredConfig) (req : KeysRequest) :
    Response × List LogEntry :=
  if production && !(serverOriginOk req.origin) then
    (⟨403, Body.errorOnly "Unauthorized origin"⟩, [])
  else if req.rateLimitRemaining = some 0 then
    (⟨429, Body.errorOnly "Too many requests"⟩, [])
  else
    let groq := envOrEmpty cfg.groqApiKey
    let perplexity := envOrEmpty cfg.perplexityApiKey
    let gemini := envOrEmpty cfg.geminiApiKey
    let logs :=
      if production then
        [LogEntry.audit req.ip (!groq.toList.isEmpty) (!perplexity.toList.isEmpty)
          (!gemini.toList.isEmpty)]
      else []
    (⟨200, Body.keys groq perplexity gemini⟩, logs)

/-- The request data the src/unnamed/part_000 `/api/keys` handler inspects. -/
structure PartKeysRequest where
  origin : Option String
  ip : String
  deriving DecidableEq, Repr

/-- src/unnamed/part_000 lines 132-158: the `/api/keys` handler.  The origin
check runs in every mode; on success the keys are assembled with `|| ''` and a
log line with one presence boolean per key is always emitted. -/
def keysHandlerPart (cfg : CredConfig) (req : PartKeysRequest) :
    Response × List LogEntry :=
  if !(partOriginOk req.origin) then
    (⟨403, Body.errorOnly "Unauthorized origin"⟩, [])
  else
    let groq := envOrEmpty cfg.groqApiKey
    let perplexity := envOrEmpty cfg.perplexityApiKey
    let gemini := envOrEmpty cfg.geminiApiKey
    (⟨200, Body.keys groq perplexity gemini⟩,
     [LogEntry.audit req.ip (!groq.toList.isEmpty) (!perplexity.toList.isEmpty)
       (!gemini.toList.isEmpty)])

/-! ## Rate limiting (express-rate-limit, two tiers) -/

/-- A limiter's configuration object as passed to `rateLimit({...})`:
window length in milliseconds, cap, the message object sent as the 429 body,
and the two header flags. -/
structure LimiterOptions where
  windowMs : Nat
  max : Nat
  message : Body
  standardHeaders : Bool
  legacyHeaders : Bool
  deriving DecidableEq, Repr

/-- src/server.js lines 102-111: the Tier A (global) limiter. -/
def generalLimiterServer : LimiterOptions :=
  { windowMs := 15 * 60 * 1000
    max := 100
    message := Body.errorRetry "Too many requests from this IP, please try again later."
      "15 minutes"
    standardHeaders := true
    legacyHeaders := false }

/-- src/server.js lines 113-122: the Tier B (API-scoped) limiter. -/
def apiLimiterServer : LimiterOptions :=
  { windowMs := 1 * 60 * 1000
    max := 10
    message := Body.errorRetry "Too many API requests, please slow down." "1 minute"
    standardHeaders := true
    legacyHeaders := false }

/-- src/unnamed/part_000 lines 94-100: the Tier A (global) limiter. -/
def generalLimiterPart : LimiterOptions :=
  { windowMs := 15 * 60 * 1000
    max := 200
    message := Body.errorOnly "Too many requests, please try again later"
    standardHeaders := true
    legacyHeaders := false }

/-- src/unnamed/part_000 lines 102-108: the Tier B (API-scoped) limiter. -/
def apiLimiterPart : LimiterOptions :=
  { windowMs := 60 * 1000
    max := 20
    message := Body.errorOnly "Too many API requests"
    standardHeaders := true
    legacyHeaders := false }

/-- The per-client hit counters of the two tiers within their current windows. -/
structure TierCounters where
  tierAHits : Nat
  tierBHits : Nat
  deriving DecidableEq, Repr

/-- What the two-tier limiter chain decides for one request. -/
inductive Outcome where
  /-- Blocked by the Tier A (global) limiter. -/
  | limitedA
  /-- Blocked by the Tier B (API) limiter. -/
  | limitedB
  /-- An `/api/*` request admitted by both tiers. -/
  | admittedApi
  /-- A non-API request admitted by Tier A. -/
  | admittedOther
  deriving DecidableEq, Repr

/-- One request through `app.use(generalLimiter)` then `app.use('/api/', apiLimiter)`
(src/server.js lines 125-126, src/unnamed/part_000 lines 111-112), within a single
window.  express-rate-limit increments the hit count on every request it sees and
blocks when the incremented count exceeds the cap, so requests `1..max` pass and
request `max+1` is answered 429.  A request blocked by Tier A never reaches
Tier B. -/
def limitersStep (genMax apiMax : Nat) (isApi : Bool) (s : TierCounters) :
    TierCounters × Outcome :=
  let hitsA := s.tierAHits + 1
  if genMax < hitsA then
    (⟨hitsA, s.tierBHits⟩, Outcome.limitedA)
  else if isApi then
    let hitsB := s.tierBHits + 1
    if apiMax < hitsB then (⟨hitsA, hitsB⟩, Outcome.limitedB)
    else (⟨hitsA, hitsB⟩, Outcome.admittedApi)
  else
    (⟨hitsA, s.tierBHits⟩, Outcome.admittedOther)

/-- The immediate 429 response a blocked request receives: the blocking tier's
configured message object, sent without forwarding the request any further. -/
def limiterResponse (general api : LimiterOptions) : Outcome → Option Response
  | Outcome.limitedA => some ⟨429, general.message⟩
  | Outcome.limitedB => some ⟨429, api.message⟩
  | _ => none

/-- A trace of requests (each marked api / non-api) through the two limiters
within one window, collecting the outcomes. -/
def runTrace (genMax apiMax : Nat) (s : TierCounters) :
    List Bool → TierCounters × List Outcome
  | [] => (s, [])
  | r :: rs =>
    let step := limitersStep genMax apiMax r s
    let rest := runTrace genMax apiMax step.1 rs
    (rest.1, step.2 :: rest.2)

/-- How many `/api/*` requests of a trace were admitted by both tiers. -/
def countAdmittedApi (os : List Outcome) : Nat :=
  os.countP (fun o => o = Outcome.admittedApi)

/-! ## Full `/api/keys` pipeline for src/server.js (limiter + handler) -/

/-- One `/api/keys` request through the src/server.js pipeline: both limiters
run (the path is under `/api/`), and when they admit the request the handler
sees `req.rateLimit.remaining = apiLimiter.max - tierBHits` (clamped at zero),
exactly what express-rate-limit stores after counting the request. -/
def apiKeysPipelineServer (production : Bool) (cfg : CredConfig)
    (origin : Option String) (ip : String) (s : TierCounters) :
    TierCounters × Response × List LogEntry :=
  let step := limitersStep generalLimiterServer.max apiLimiterServer.max true s
  match limiterResponse generalLimiterServer apiLimiterServer step.2 with
  | some resp => (step.1, resp, [])
  | none =>
    let hres := keysHandlerServer production cfg
      ⟨origin, ip, some (apiLimiterServer.max - step.1.tierBHits)⟩
    (step.1, hres.1, hres.2)

/-- A sequence of identical `/api/keys` requests from one client within one
window, collecting the responses. -/
def runKeysSeqServer (production : Bool) (cfg : CredConfig)
    (origin : Option String) (ip : String) : Nat → TierCounters → List Response
  | 0, _ => []
  | n + 1, s =>
    let step := apiKeysPipelineServer production cfg origin ip s
    step.2.1 :: runKeysSeqServer production cfg origin ip n step.1

/-- The number of successful (HTTP 200) responses in a list. -/
def countOk (rs : List Response) : Nat :=
  rs.countP (fun r => r.status = 200)

/-! ## Registration order of the pipeline stages -/

/-- The stages registered on the Express app, in source order.  `app.use`
middleware and routes share one ordered chain; error-handling middleware is
matched only once an error has been raised by an earlier stage. -/
inductive Layer where
  | jsonParser
  | urlencodedParser
  | helmetMw
  | generalLimiterMw
  | apiLimiterMw
  | compressionMw
  | staticFiles
  | healthRoute
  | keysRoute
  | errorHandlerMw
  | catchAllRoute
  deriving DecidableEq, Repr, BEq

/-- The registration order common to src/server.js (lines 40-196) and
src/unnamed/part_000 (lines 32-172): parsers, helmet, the two limiters,
compression, static files, the two API routes, the error handler, and last
the catch-all GET route. -/
def appLayers : List Layer :=
  [Layer.jsonParser, Layer.urlencodedParser, Layer.helmetMw, Layer.generalLimiterMw,
   Layer.apiLimiterMw, Layer.compressionMw, Layer.staticFiles, Layer.healthRoute,
   Layer.keysRoute, Layer.errorHandlerMw, Layer.catchAllRoute]

/-- Whether a stage is an ordinary route handler (registered with `app.get`). -/
def isRoute : Layer → Bool
  | Layer.healthRoute => true
  | Layer.keysRoute => true
  | Layer.catchAllRoute => true
  | _ => false

/-- Express error propagation: an error raised in a stage reaches an
error-handling middleware exactly when that middleware is registered later in
the chain. -/
def catchesErrorsFrom (layers : List Layer) (l : Layer) : Bool :=
  layers.indexOf l < layers.indexOf Layer.errorHandlerMw

/-- src/server.js lines 185-191 and src/unnamed/part_000 lines 161-167: the
terminal error-handling middleware always answers 500; the `message` field is
the error's own message exactly when `NODE_ENV` equals the literal string
`development`, and the fixed generic string otherwise. -/
def errorHandlerResponse (nodeEnv : Option String) (errMessage : String) : Response :=
  ⟨500, Body.errorMessage "Internal server error"
    (if nodeEnv = some "development" then errMessage else "Something went wrong")⟩

/-! ## GET routing -/

/-- Where a GET request is routed. -/
inductive RouteTarget where
  | staticAsset
  | health
  | keysEndpoint
  | spaIndex
  deriving DecidableEq, Repr

/-- The SPA fallback response of `app.get('*')`: `res.sendFile` of
`public/index.html` answers 200 with the entry document. -/
def spaFallback : Nat × String :=
  (200, "index.html")

/-- GET dispatch in registration order: the static file server matches
published asset paths, then the two exact API routes, then the catch-all
serves the SPA entry document (src/server.js lines 132, 135, 146, 194). -/
def dispatchGet (assets : List String) (path : String) : RouteTarget :=
  if assets.contains path then RouteTarget.staticAsset
  else if path = "/api/health" then RouteTarget.health
  else if path = "/api/keys" then RouteTarget.keysEndpoint
  else RouteTarget.spaIndex

/-! ## Body-size admission -/

/-- The byte value of the configured `'10mb'` limit (src/server.js lines 40-41,
src/unnamed/part_000 lines 32-33). -/
def mbLimitBytes : Nat := 10 * 1024 * 1024

/-- What the admission pipeline does with a request body of a given size. -/
inductive ParseResult where
  /-- Rejected by the body parser; no later stage runs. -/
  | rejectedByParser
  /-- Admitted; the request continues to the later stages and the router. -/
  | reachesRouter
  deriving DecidableEq, Repr

/-- Modelled from the spec: the enforcement inside `express.json` /
`express.urlencoded` is implemented by the express dependency, not by this
repository; the repository only configures `limit: '10mb'`.  Per the spec,
bodies over the ceiling are rejected by the parser stage before any route
handler executes. -/
def bodyAdmission (bodyBytes : Nat) : ParseResult :=
  if mbLimitBytes < bodyBytes then ParseResult.rejectedByParser
  else ParseResult.reachesRouter

/-! ## Helper lemmas -/

/-- A set environment variable passes through `x ? x : ''` unchanged (an empty
value is returned as the empty string, which is the value itself). -/
theorem envOrEmpty_some (s : String) : envOrEmpty (some s) = s := by
  cases s with
  | mk data => cases data <;> simp [envOrEmpty, envTruthy]

/-- An unset environment variable becomes the empty string. -/
theorem envOrEmpty_none : envOrEmpty none = "" := rfl

/-- The logged presence boolean of an assembled key value coincides with the
truthiness of the underlying environment variable. -/
theorem presence_envOrEmpty (v : Option String) :
    (!(envOrEmpty v).toList.isEmpty) = envTruthy v := by
  cases v with
  | none => decide
  | some s =>
    cases h : s.toList.isEmpty <;> simp_all [envOrEmpty, envTruthy, h]

/-- Variant of `presence_envOrEmpty` in the normal form simp produces. -/
theorem data_isEmpty_envOrEmpty (v : Option String) :
    (envOrEmpty v).data.isEmpty = !envTruthy v := by
  have h := presence_envOrEmpty v
  cases henv : envTruthy v <;> simp_all [String.toList]

/-- Every limiter step increments the Tier A hit counter by exactly one,
whatever the Tier B counter holds. -/
theorem limitersStep_tierA (g a : Nat) (i : Bool) (s : TierCounters) :
    ((limitersStep g a i s).1).tierAHits = s.tierAHits + 1 := by
  simp only [limitersStep]
  split_ifs <;> rfl

/-- A request blocked by the Tier A limiter leaves the Tier B counter untouched. -/
theorem limitersStep_limitedA_tierB (g a : Nat) (i : Bool) (s : TierCounters)
    (h : (limitersStep g a i s).2 = Outcome.limitedA) :
    ((limitersStep g a i s).1).tierBHits = s.tierBHits := by
  simp only [limitersStep] at h ⊢
  split_ifs at h ⊢
  all_goals simp_all

/-- Once the Tier B counter has reached the Tier B cap, a further API request
is blocked by one of the two tiers. -/
theorem limitersStep_blocks (g a : Nat) (s : TierCounters)
    (h : a ≤ s.tierBHits) :
    (limitersStep g a true s).2 = Outcome.limitedA ∨
    (limitersStep g a true s).2 = Outcome.limitedB := by
  simp only [limitersStep]
  split_ifs with h1 h2
  · exact Or.inl rfl
  · exact Or.inr rfl
  · omega

/-- The final Tier B counter of a trace is at least the initial counter plus
the number of admitted API requests of the trace. -/
theorem runTrace_tierB_ge (g a : Nat) :
    ∀ (reqs : List Bool) (s : TierCounters),
      s.tierBHits + countAdmittedApi (runTrace g a s reqs).2 ≤
        ((runTrace g a s reqs).1).tierBHits := by
  intro reqs
  induction reqs with
  | nil => intro s; simp [runTrace, countAdmittedApi]
  | cons r rs ih =>
    intro s
    have ih2 := ih (limitersStep g a r s).1
    simp only [runTrace, countAdmittedApi, List.countP_cons] at ih2 ⊢
    simp only [limitersStep] at ih2 ⊢
    split_ifs at ih2 ⊢ <;> simp_all <;> omega

/-- An API request admitted by both tiers incremented the Tier B counter and
stayed within the Tier B cap. -/
theorem limitersStep_admittedApi_facts (g a : Nat) (i : Bool) (s : TierCounters)
    (h : (limitersStep g a i s).2 = Outcome.admittedApi) :
    ((limitersStep g a i s).1).tierBHits = s.tierBHits + 1 ∧ s.tierBHits + 1 ≤ a := by
  simp only [limitersStep] at h ⊢
  split_ifs at h ⊢
  all_goals simp_all

/-- One `/api/keys` request through the src/server.js pipeline moves the Tier B
counter by at most one, and can only answer 200 when the counter was at most
`apiLimiter.max - 2` before the request (the handler's own
`remaining === 0` re-check rejects the request that consumes the quota to
zero). -/
theorem pipeline_step_facts (production : Bool) (cfg : CredConfig)
    (origin : Option String) (ip : String) (s : TierCounters) :
    (((apiKeysPipelineServer production cfg origin ip s).1).tierBHits = s.tierBHits ∨
     ((apiKeysPipelineServer production cfg origin ip s).1).tierBHits = s.tierBHits + 1)
    ∧ (((apiKeysPipelineServer production cfg origin ip s).2.1).status = 200 →
        ((apiKeysPipelineServer production cfg origin ip s).1).tierBHits = s.tierBHits + 1
          ∧ s.tierBHits + 1 ≤ apiLimiterServer.max - 1) := by
  simp only [apiKeysPipelineServer, limitersStep, limiterResponse, keysHandlerServer,
    apiLimiterServer, generalLimiterServer]
  split_ifs <;> simp_all <;> omega

/-- Bound on successful responses of a run of `/api/keys` requests within one
window: at most `apiLimiter.max - 1` beyond whatever Tier B hits were already
consumed. -/
theorem countOk_runKeysSeqServer (production : Bool) (cfg : CredConfig)
    (origin : Option String) (ip : String) :
    ∀ (n : Nat) (s : TierCounters),
      countOk (runKeysSeqServer production cfg origin ip n s) ≤
        (apiLimiterServer.max - 1) - s.tierBHits := by
  intro n
  induction n with
  | zero => intro s; simp [runKeysSeqServer, countOk]
  | succ m ih =>
    intro s
    have hstep := pipeline_step_facts production cfg origin ip s
    have ih2 := ih (apiKeysPipelineServer production cfg origin ip s).1
    simp only [runKeysSeqServer, countOk, List.countP_cons, decide_eq_true_eq] at ih2 ⊢
    by_cases h200 : ((apiKeysPipelineServer production cfg origin ip s).2.1).status = 200
    · have hf := hstep.2 h200
      rw [if_pos h200]
      simp only [apiLimiterServer] at ih2 hf ⊢
      omega
    · rw [if_neg h200]
      simp only [apiLimiterServer] at ih2 ⊢
      rcases hstep.1 with h | h <;> omega

/-! ## Claim theorems -/

/-- C1: in production mode, a `/api/keys` request whose Origin header is absent
or fails the origin check is answered exactly HTTP 403 with body
`error: Unauthorized origin`, with no keys assembled and no audit log emitted -
in both variants. -/
theorem c1_unauthorized_origin_403
    (cfg cfg2 : CredConfig) (o1 o2 : Option String) (ip ip2 : String)
    (rl : Option Nat)
    (h1 : serverOriginOk o1 = false) (h2 : partOriginOk o2 = false) :
    keysHandlerServer true cfg ⟨o1, ip, rl⟩ =
      (⟨403, Body.errorOnly "Unauthorized origin"⟩, [])
    ∧ keysHandlerPart cfg2 ⟨o2, ip2⟩ =
      (⟨403, Body.errorOnly "Unauthorized origin"⟩, []) := by
  constructor
  · simp [keysHandlerServer, h1]
  · simp [keysHandlerPart, h2]

/-- Witness for C1 at a concrete input: an absent Origin header is rejected by
both variants. -/
theorem c1_unauthorized_origin_403_witness :
    serverOriginOk none = false ∧ partOriginOk none = false ∧
    (keysHandlerServer true ⟨some "gk", some "pk", some "mk"⟩ ⟨none, "1.2.3.4", some 5⟩ =
        (⟨403, Body.errorOnly "Unauthorized origin"⟩, [])
      ∧ keysHandlerPart ⟨some "gk", some "pk", some "mk"⟩ ⟨none, "1.2.3.4"⟩ =
        (⟨403, Body.errorOnly "Unauthorized origin"⟩, [])) :=
  ⟨by decide, by decide,
   c1_unauthorized_origin_403 ⟨some "gk", some "pk", some "mk"⟩
     ⟨some "gk", some "pk", some "mk"⟩ none none "1.2.3.4" "1.2.3.4" (some 5)
     (by decide) (by decide)⟩

/-- C2: the origin validation is a prefix / substring match, not an exact-host
allow-list.  `https://localhost.attacker.example` passes the src/server.js
regex and `https://evil.example/render.com` passes the src/unnamed/part_000
inclusion check, although neither host is an allow-listed domain, and both
requests receive HTTP 200 with the full credential set. -/
theorem c2_lax_origin_match :
    originMatchServer "https://localhost.attacker.example" = true
    ∧ hostOf "https://localhost.attacker.example" = "localhost.attacker.example"
    ∧ serverAllowListHosts.contains "localhost.attacker.example" = false
    ∧ allowedOrigins.contains "localhost.attacker.example" = false
    ∧ keysHandlerServer true ⟨some "gk", some "pk", some "mk"⟩
        ⟨some "https://localhost.attacker.example", "203.0.113.5", some 7⟩ =
        (⟨200, Body.keys "gk" "pk" "mk"⟩, [LogEntry.audit "203.0.113.5" true true true])
    ∧ partOriginOk (some "https://evil.example/render.com") = true
    ∧ hostOf "https://evil.example/render.com" = "evil.example"
    ∧ allowedOrigins.contains "evil.example" = false
    ∧ keysHandlerPart ⟨some "gk", some "pk", some "mk"⟩
        ⟨some "https://evil.example/render.com", "198.51.100.9"⟩ =
        (⟨200, Body.keys "gk" "pk" "mk"⟩,
         [LogEntry.audit "198.51.100.9" true true true]) := by
  decide

/-- C3: the audit log of a successful `/api/keys` request records the client
address and one presence boolean per credential, and nothing about the secret
values themselves: two credential configurations with the same presence
pattern produce identical log output for the same request, in both variants. -/
theorem c3_audit_log_presence_only
    (cfg1 cfg2 : CredConfig) (production : Bool) (req : KeysRequest)
    (req2 : PartKeysRequest)
    (h : presencePattern cfg1 = presencePattern cfg2) :
    (keysHandlerServer production cfg1 req).2 = (keysHandlerServer production cfg2 req).2
    ∧ (keysHandlerPart cfg1 req2).2 = (keysHandlerPart cfg2 req2).2
    ∧ (serverOriginOk req.origin = true → req.rateLimitRemaining ≠ some 0 →
        (keysHandlerServer true cfg1 req).2 =
          [LogEntry.audit req.ip (envTruthy cfg1.groqApiKey)
            (envTruthy cfg1.perplexityApiKey) (envTruthy cfg1.geminiApiKey)])
    ∧ (partOriginOk req2.origin = true →
        (keysHandlerPart cfg1 req2).2 =
          [LogEntry.audit req2.ip (envTruthy cfg1.groqApiKey)
            (envTruthy cfg1.perplexityApiKey) (envTruthy cfg1.geminiApiKey)]) := by
  simp only [presencePattern, Prod.mk.injEq] at h
  obtain ⟨hg, hp, hm⟩ := h
  refine ⟨?_, ?_, ?_, ?_⟩
  · simp only [keysHandlerServer, presence_envOrEmpty, hg, hp, hm]
    split_ifs <;> rfl
  · simp only [keysHandlerPart, presence_envOrEmpty, hg, hp, hm]
    split_ifs <;> rfl
  · intro ho hrl
    simp [keysHandlerServer, ho, hrl, presence_envOrEmpty, data_isEmpty_envOrEmpty]
  · intro ho
    simp [keysHandlerPart, ho, presence_envOrEmpty, data_isEmpty_envOrEmpty]

/-- Witness for C3 at concrete inputs: two different credential configurations
with the same presence pattern log identically. -/
theorem c3_audit_log_presence_only_witness :
    presencePattern ⟨some "gk", none, some "mk"⟩ =
      presencePattern ⟨some "other", none, some "secret"⟩
    ∧ serverOriginOk (some "http://localhost:8080") = true
    ∧ (some 3 : Option Nat) ≠ some 0
    ∧ partOriginOk (some "http://localhost:8080") = true
    ∧ ((keysHandlerServer true ⟨some "gk", none, some "mk"⟩
          ⟨some "http://localhost:8080", "1.2.3.4", some 3⟩).2 =
        (keysHandlerServer true ⟨some "other", none, some "secret"⟩
          ⟨some "http://localhost:8080", "1.2.3.4", some 3⟩).2
      ∧ (keysHandlerPart ⟨some "gk", none, some "mk"⟩
          ⟨some "http://localhost:8080", "1.2.3.4"⟩).2 =
        (keysHandlerPart ⟨some "other", none, some "secret"⟩
          ⟨some "http://localhost:8080", "1.2.3.4"⟩).2
      ∧ (serverOriginOk (some "http://localhost:8080") = true →
          (some 3 : Option Nat) ≠ some 0 →
          (keysHandlerServer true ⟨some "gk", none, some "mk"⟩
            ⟨some "http://localhost:8080", "1.2.3.4", some 3⟩).2 =
            [LogEntry.audit "1.2.3.4" true false true])
      ∧ (partOriginOk (some "http://localhost:8080") = true →
          (keysHandlerPart ⟨some "gk", none, some "mk"⟩
            ⟨some "http://localhost:8080", "1.2.3.4"⟩).2 =
            [LogEntry.audit "1.2.3.4" true false true])) :=
  ⟨by decide, by decide, by decide, by decide,
   c3_audit_log_presence_only ⟨some "gk", none, some "mk"⟩
     ⟨some "other", none, some "secret"⟩ true
     ⟨some "http://localhost:8080", "1.2.3.4", some 3⟩
     ⟨some "http://localhost:8080", "1.2.3.4"⟩ (by decide)⟩

/-- C6: a `/api/keys` request that passes origin validation and is not
rate-limited is answered HTTP 200 with a body of exactly the three fields
groq, perplexity and gemini, each the configured secret when set and the empty
string when unset; no credential configuration makes the handler fail. -/
theorem c6_keys_success_shape
    (production : Bool) (cfg cfg2 : CredConfig) (o1 o2 : Option String)
    (ip ip2 : String) (rl : Option Nat)
    (h1 : production = true → serverOriginOk o1 = true)
    (h2 : rl ≠ some 0)
    (h3 : partOriginOk o2 = true) :
    (keysHandlerServer production cfg ⟨o1, ip, rl⟩).1 =
      ⟨200, Body.keys (envOrEmpty cfg.groqApiKey) (envOrEmpty cfg.perplexityApiKey)
        (envOrEmpty cfg.geminiApiKey)⟩
    ∧ (keysHandlerPart cfg2 ⟨o2, ip2⟩).1 =
      ⟨200, Body.keys (envOrEmpty cfg2.groqApiKey) (envOrEmpty cfg2.perplexityApiKey)
        (envOrEmpty cfg2.geminiApiKey)⟩
    ∧ (∀ s : String, envOrEmpty (some s) = s)
    ∧ envOrEmpty none = "" := by
  refine ⟨?_, ?_, envOrEmpty_some, envOrEmpty_none⟩
  · cases production with
    | false => simp [keysHandlerServer, h2]
    | true => simp [keysHandlerServer, h1 rfl, h2]
  · simp [keysHandlerPart, h3]

/-- Witness for C6 at concrete inputs, including an entirely unset credential
configuration. -/
theorem c6_keys_success_shape_witness :
    ((true : Bool) = true → serverOriginOk (some "https://arogya-ai.vercel.app") = true)
    ∧ (some 4 : Option Nat) ≠ some 0
    ∧ partOriginOk (some "https://arogya-ai.vercel.app") = true
    ∧ ((keysHandlerServer true ⟨none, none, none⟩
          ⟨some "https://arogya-ai.vercel.app", "1.2.3.4", some 4⟩).1 =
        ⟨200, Body.keys (envOrEmpty none) (envOrEmpty none) (envOrEmpty none)⟩
      ∧ (keysHandlerPart ⟨some "gk", none, none⟩
          ⟨some "https://arogya-ai.vercel.app", "1.2.3.4"⟩).1 =
        ⟨200, Body.keys (envOrEmpty (some "gk")) (envOrEmpty none) (envOrEmpty none)⟩
      ∧ (∀ s : String, envOrEmpty (some s) = s)
      ∧ envOrEmpty none = "") :=
  ⟨fun _ => by decide, by decide, by decide,
   c6_keys_success_shape true ⟨none, none, none⟩ ⟨some "gk", none, none⟩
     (some "https://arogya-ai.vercel.app") (some "https://arogya-ai.vercel.app")
     "1.2.3.4" "1.2.3.4" (some 4) (fun _ => by decide) (by decide) (by decide)⟩

/-- C4: once the Tier B cap many `/api/*` requests have been admitted within a
window, the next `/api/*` request is answered HTTP 429 whatever the Tier A
counter holds (the initial Tier A count is universally quantified), in both
variants; moreover every request increments Tier A by exactly one regardless
of Tier B, and a Tier A block leaves the Tier B counter untouched. -/
theorem c4_tier_caps_independent
    (a0 b0 : Nat) (reqs1 reqs2 : List Bool)
    (hS : apiLimiterServer.max ≤ countAdmittedApi
        (runTrace generalLimiterServer.max apiLimiterServer.max ⟨a0, 0⟩ reqs1).2)
    (hP : apiLimiterPart.max ≤ countAdmittedApi
        (runTrace generalLimiterPart.max apiLimiterPart.max ⟨b0, 0⟩ reqs2).2) :
    (∃ r : Response,
      limiterResponse generalLimiterServer apiLimiterServer
        (limitersStep generalLimiterServer.max apiLimiterServer.max true
          (runTrace generalLimiterServer.max apiLimiterServer.max ⟨a0, 0⟩ reqs1).1).2 =
        some r ∧ r.status = 429)
    ∧ (∃ r : Response,
      limiterResponse generalLimiterPart apiLimiterPart
        (limitersStep generalLimiterPart.max apiLimiterPart.max true
          (runTrace generalLimiterPart.max apiLimiterPart.max ⟨b0, 0⟩ reqs2).1).2 =
        some r ∧ r.status = 429)
    ∧ (∀ (g a : Nat) (i : Bool) (s : TierCounters),
        ((limitersStep g a i s).1).tierAHits = s.tierAHits + 1)
    ∧ (∀ (g a : Nat) (i : Bool) (s : TierCounters),
        (limitersStep g a i s).2 = Outcome.limitedA →
          ((limitersStep g a i s).1).tierBHits = s.tierBHits) := by
  refine ⟨?_, ?_, limitersStep_tierA, limitersStep_limitedA_tierB⟩
  · have hinv := runTrace_tierB_ge generalLimiterServer.max apiLimiterServer.max reqs1 ⟨a0, 0⟩
    have hz : (⟨a0, (0 : Nat)⟩ : TierCounters).tierBHits = 0 := rfl
    have hblock := limitersStep_blocks generalLimiterServer.max apiLimiterServer.max
      (runTrace generalLimiterServer.max apiLimiterServer.max ⟨a0, 0⟩ reqs1).1 (by omega)
    rcases hblock with h | h <;> rw [h] <;> exact ⟨_, rfl, rfl⟩
  · have hinv := runTrace_tierB_ge generalLimiterPart.max apiLimiterPart.max reqs2 ⟨b0, 0⟩
    have hz : (⟨b0, (0 : Nat)⟩ : TierCounters).tierBHits = 0 := rfl
    have hblock := limitersStep_blocks generalLimiterPart.max apiLimiterPart.max
      (runTrace generalLimiterPart.max apiLimiterPart.max ⟨b0, 0⟩ reqs2).1 (by omega)
    rcases hblock with h | h <;> rw [h] <;> exact ⟨_, rfl, rfl⟩

/-- Witness for C4 at a concrete trace: twenty API requests in one window
admit exactly the cap in each variant, and the next API request is blocked. -/
theorem c4_tier_caps_independent_witness :
    apiLimiterServer.max ≤ countAdmittedApi
      (runTrace generalLimiterServer.max apiLimiterServer.max ⟨0, 0⟩
        (List.replicate 20 true)).2
    ∧ apiLimiterPart.max ≤ countAdmittedApi
      (runTrace generalLimiterPart.max apiLimiterPart.max ⟨0, 0⟩
        (List.replicate 20 true)).2
    ∧ ((∃ r : Response,
        limiterResponse generalLimiterServer apiLimiterServer
          (limitersStep generalLimiterServer.max apiLimiterServer.max true
            (runTrace generalLimiterServer.max apiLimiterServer.max ⟨0, 0⟩
              (List.replicate 20 true)).1).2 = some r ∧ r.status = 429)
      ∧ (∃ r : Response,
        limiterResponse generalLimiterPart apiLimiterPart
          (limitersStep generalLimiterPart.max apiLimiterPart.max true
            (runTrace generalLimiterPart.max apiLimiterPart.max ⟨0, 0⟩
              (List.replicate 20 true)).1).2 = some r ∧ r.status = 429)
      ∧ (∀ (g a : Nat) (i : Bool) (s : TierCounters),
          ((limitersStep g a i s).1).tierAHits = s.tierAHits + 1)
      ∧ (∀ (g a : Nat) (i : Bool) (s : TierCounters),
          (limitersStep g a i s).2 = Outcome.limitedA →
            ((limitersStep g a i s).1).tierBHits = s.tierBHits)) :=
  ⟨by decide, by decide,
   c4_tier_caps_independent 0 0 (List.replicate 20 true) (List.replicate 20 true)
     (by decide) (by decide)⟩

/-- C5 counterexample: in the src/unnamed/part_000 variant a request that
exceeds the Tier B cap is answered 429 with a body that has only an `error`
field and no `retryAfter` field, refuting the claim that every rate-limited
response carries a `retryAfter` field. -/
theorem c5_missing_retryAfter_counterexample :
    (limitersStep generalLimiterPart.max apiLimiterPart.max true ⟨0, 20⟩).2 =
      Outcome.limitedB
    ∧ limiterResponse generalLimiterPart apiLimiterPart Outcome.limitedB =
        some ⟨429, Body.errorOnly "Too many API requests"⟩
    ∧ bodyRetryAfter (Body.errorOnly "Too many API requests") = none := by
  decide

/-- C5 as amended: a request exceeding a tier's cap is answered immediately
with HTTP 429 and the tier's configured message body, with standard rate-limit
headers enabled and without being forwarded to any later stage; the body
carries both `error` and `retryAfter` in the src/server.js variant, and only
`error` in the src/unnamed/part_000 variant. -/
theorem c5_rate_limited_response_shape
    (s t : TierCounters)
    (hA : generalLimiterServer.max < s.tierAHits + 1)
    (hP1 : ¬ generalLimiterPart.max < t.tierAHits + 1)
    (hP2 : apiLimiterPart.max < t.tierBHits + 1) :
    (limitersStep generalLimiterServer.max apiLimiterServer.max true s).2 =
      Outcome.limitedA
    ∧ limiterResponse generalLimiterServer apiLimiterServer Outcome.limitedA =
        some ⟨429, Body.errorRetry
          "Too many requests from this IP, please try again later." "15 minutes"⟩
    ∧ limiterResponse generalLimiterServer apiLimiterServer Outcome.limitedB =
        some ⟨429, Body.errorRetry "Too many API requests, please slow down."
          "1 minute"⟩
    ∧ bodyRetryAfter generalLimiterServer.message = some "15 minutes"
    ∧ bodyRetryAfter apiLimiterServer.message = some "1 minute"
    ∧ (limitersStep generalLimiterPart.max apiLimiterPart.max true t).2 =
        Outcome.limitedB
    ∧ limiterResponse generalLimiterPart apiLimiterPart Outcome.limitedB =
        some ⟨429, Body.errorOnly "Too many API requests"⟩
    ∧ limiterResponse generalLimiterPart apiLimiterPart Outcome.limitedA =
        some ⟨429, Body.errorOnly "Too many requests, please try again later"⟩
    ∧ bodyRetryAfter generalLimiterPart.message = none
    ∧ bodyRetryAfter apiLimiterPart.message = none
    ∧ generalLimiterServer.standardHeaders = true
    ∧ apiLimiterServer.standardHeaders = true
    ∧ generalLimiterPart.standardHeaders = true
    ∧ apiLimiterPart.standardHeaders = true
    ∧ (∀ (production : Bool) (cfg : CredConfig) (origin : Option String) (ip : String),
        apiKeysPipelineServer production cfg origin ip s =
          ((limitersStep generalLimiterServer.max apiLimiterServer.max true s).1,
           ⟨429, generalLimiterServer.message⟩, [])) := by
  have hstep : (limitersStep generalLimiterServer.max apiLimiterServer.max true s).2 =
      Outcome.limitedA := by
    simp only [limitersStep]
    split_ifs
    all_goals simp_all
  have hstepP : (limitersStep generalLimiterPart.max apiLimiterPart.max true t).2 =
      Outcome.limitedB := by
    simp only [limitersStep]
    split_ifs
    all_goals simp_all
  refine ⟨hstep, rfl, rfl, rfl, rfl, hstepP, rfl, rfl, rfl, rfl, rfl, rfl, rfl, rfl, ?_⟩
  intro production cfg origin ip
  simp only [apiKeysPipelineServer, hstep, limiterResponse]

/-- Witness for C5 at concrete counters exceeding each cap. -/
theorem c5_rate_limited_response_shape_witness :
    generalLimiterServer.max < (100 : Nat) + 1
    ∧ ¬ generalLimiterPart.max < (0 : Nat) + 1
    ∧ apiLimiterPart.max < (20 : Nat) + 1
    ∧ ((limitersStep generalLimiterServer.max apiLimiterServer.max true ⟨100, 0⟩).2 =
        Outcome.limitedA
      ∧ limiterResponse generalLimiterServer apiLimiterServer Outcome.limitedA =
          some ⟨429, Body.errorRetry
            "Too many requests from this IP, please try again later." "15 minutes"⟩
      ∧ limiterResponse generalLimiterServer apiLimiterServer Outcome.limitedB =
          some ⟨429, Body.errorRetry "Too many API requests, please slow down."
            "1 minute"⟩
      ∧ bodyRetryAfter generalLimiterServer.message = some "15 minutes"
      ∧ bodyRetryAfter apiLimiterServer.message = some "1 minute"
      ∧ (limitersStep generalLimiterPart.max apiLimiterPart.max true ⟨0, 20⟩).2 =
          Outcome.limitedB
      ∧ limiterResponse generalLimiterPart apiLimiterPart Outcome.limitedB =
          some ⟨429, Body.errorOnly "Too many API requests"⟩
      ∧ limiterResponse generalLimiterPart apiLimiterPart Outcome.limitedA =
          some ⟨429, Body.errorOnly "Too many requests, please try again later"⟩
      ∧ bodyRetryAfter generalLimiterPart.message = none
      ∧ bodyRetryAfter apiLimiterPart.message = none
      ∧ generalLimiterServer.standardHeaders = true
      ∧ apiLimiterServer.standardHeaders = true
      ∧ generalLimiterPart.standardHeaders = true
      ∧ apiLimiterPart.standardHeaders = true
      ∧ (∀ (production : Bool) (cfg : CredConfig) (origin : Option String) (ip : String),
          apiKeysPipelineServer production cfg origin ip ⟨100, 0⟩ =
            ((limitersStep generalLimiterServer.max apiLimiterServer.max true
               ⟨100, 0⟩).1,
             ⟨429, generalLimiterServer.message⟩, []))) :=
  ⟨by decide, by decide, by decide,
   c5_rate_limited_response_shape ⟨100, 0⟩ ⟨0, 20⟩ (by decide) (by decide) (by decide)⟩

/-- C10: the src/server.js `/api/keys` handler re-checks
`req.rateLimit.remaining === 0` and answers 429 even for the request the
limiter itself admitted, so a client gets at most `cap - 1` successful key
responses per window; concretely, the tenth request of a window is admitted by
the Tier B limiter yet answered 429 by the handler. -/
theorem c10_at_most_cap_minus_one_successes :
    (∀ (production : Bool) (cfg : CredConfig) (origin : Option String) (ip : String)
        (n a0 : Nat),
        countOk (runKeysSeqServer production cfg origin ip n ⟨a0, 0⟩) ≤
          apiLimiterServer.max - 1)
    ∧ (limitersStep generalLimiterServer.max apiLimiterServer.max true ⟨9, 9⟩).2 =
        Outcome.admittedApi
    ∧ apiKeysPipelineServer true ⟨some "gk", some "pk", some "mk"⟩
        (some "http://localhost:3000") "1.2.3.4" ⟨9, 9⟩ =
        (⟨10, 10⟩, ⟨429, Body.errorOnly "Too many requests"⟩, [])
    ∧ countOk (runKeysSeqServer true ⟨some "gk", some "pk", some "mk"⟩
        (some "http://localhost:3000") "1.2.3.4" 15 ⟨0, 0⟩) =
        apiLimiterServer.max - 1 := by
  refine ⟨?_, by decide, by decide, by decide⟩
  intro production cfg origin ip n a0
  have h := countOk_runKeysSeqServer production cfg origin ip n ⟨a0, 0⟩
  have hz : (⟨a0, (0 : Nat)⟩ : TierCounters).tierBHits = 0 := rfl
  omega

/-- C7 counterexample: with `NODE_ENV` set to `staging` the server is not in
production mode, yet the terminal error handler's `message` field is the
generic string rather than the detailed error message, refuting the claim
that the detailed message is carried in every non-production mode. -/
theorem c7_nonproduction_detail_counterexample :
    isProduction (some "staging") = false
    ∧ errorHandlerResponse (some "staging") "boom" =
        ⟨500, Body.errorMessage "Internal server error" "Something went wrong"⟩
    ∧ ("Something went wrong" : String) ≠ "boom" := by
  decide

/-- C7 as amended: the error-handling middleware is registered after every
other middleware and route except the final catch-all GET route, so an error
propagated from any of those stages reaches it; it always answers HTTP 500
with error `Internal server error`, and the `message` field carries the
detailed error message exactly when `NODE_ENV` is the literal `development`,
and the generic `Something went wrong` in every other mode, production
included. -/
theorem c7_error_handler_last_and_500
    (nodeEnv : Option String) (m : String) (l : Layer)
    (hprod : nodeEnv ≠ some "development")
    (hl1 : l ≠ Layer.errorHandlerMw) (hl2 : l ≠ Layer.catchAllRoute)
    (hmem : appLayers.contains l = true) :
    catchesErrorsFrom appLayers l = true
    ∧ errorHandlerResponse nodeEnv m =
        ⟨500, Body.errorMessage "Internal server error" "Something went wrong"⟩
    ∧ (∀ msg : String, (errorHandlerResponse nodeEnv msg).status = 500)
    ∧ (∀ msg : String, errorHandlerResponse (some "development") msg =
        ⟨500, Body.errorMessage "Internal server error" msg⟩)
    ∧ appLayers.getLast? = some Layer.catchAllRoute
    ∧ appLayers.indexOf Layer.errorHandlerMw + 2 = appLayers.length := by
  refine ⟨?_, ?_, ?_, ?_, by decide, by decide⟩
  · cases l <;> simp_all <;> decide
  · simp [errorHandlerResponse, hprod]
  · intro msg; simp [errorHandlerResponse]
  · intro msg; simp [errorHandlerResponse]

/-- Witness for C7 at a concrete input: production mode, an error raised in
the `/api/keys` route. -/
theorem c7_error_handler_last_and_500_witness :
    (some "production" : Option String) ≠ some "development"
    ∧ Layer.keysRoute ≠ Layer.errorHandlerMw
    ∧ Layer.keysRoute ≠ Layer.catchAllRoute
    ∧ appLayers.contains Layer.keysRoute = true
    ∧ (catchesErrorsFrom appLayers Layer.keysRoute = true
      ∧ errorHandlerResponse (some "production") "boom" =
          ⟨500, Body.errorMessage "Internal server error" "Something went wrong"⟩
      ∧ (∀ msg : String, (errorHandlerResponse (some "production") msg).status = 500)
      ∧ (∀ msg : String, errorHandlerResponse (some "development") msg =
          ⟨500, Body.errorMessage "Internal server error" msg⟩)
      ∧ appLayers.getLast? = some Layer.catchAllRoute
      ∧ appLayers.indexOf Layer.errorHandlerMw + 2 = appLayers.length) :=
  ⟨by decide, by decide, by decide, by decide,
   c7_error_handler_last_and_500 (some "production") "boom" Layer.keysRoute
     (by decide) (by decide) (by decide) (by decide)⟩

/-- C8: a GET request whose path matches no published static asset and is
neither `/api/health` nor `/api/keys` is dispatched to the catch-all, which
answers 200 with the SPA entry document rather than a 404; the catch-all is
registered after both API routes and never shadows them. -/
theorem c8_spa_fallback_no_shadow
    (assets : List String) (p : String)
    (h1 : assets.contains p = false) (h2 : p ≠ "/api/health") (h3 : p ≠ "/api/keys")
    (h4 : assets.contains "/api/health" = false)
    (h5 : assets.contains "/api/keys" = false) :
    dispatchGet assets p = RouteTarget.spaIndex
    ∧ spaFallback = (200, "index.html")
    ∧ spaFallback.1 ≠ 404
    ∧ dispatchGet assets "/api/health" = RouteTarget.health
    ∧ dispatchGet assets "/api/keys" = RouteTarget.keysEndpoint
    ∧ appLayers.indexOf Layer.healthRoute < appLayers.indexOf Layer.catchAllRoute
    ∧ appLayers.indexOf Layer.keysRoute < appLayers.indexOf Layer.catchAllRoute := by
  refine ⟨?_, rfl, by decide, ?_, ?_, by decide, by decide⟩
  · simp at h1
    simp [dispatchGet, h1, h2, h3]
  · simp at h4
    simp [dispatchGet, h4]
  · simp at h5
    simp [dispatchGet, h5]

/-- Witness for C8 at a concrete deep-linked client-side route. -/
theorem c8_spa_fallback_no_shadow_witness :
    (["/app.js", "/styles.css"] : List String).contains "/consult/history" = false
    ∧ ("/consult/history" : String) ≠ "/api/health"
    ∧ ("/consult/history" : String) ≠ "/api/keys"
    ∧ (["/app.js", "/styles.css"] : List String).contains "/api/health" = false
    ∧ (["/app.js", "/styles.css"] : List String).contains "/api/keys" = false
    ∧ (dispatchGet ["/app.js", "/styles.css"] "/consult/history" = RouteTarget.spaIndex
      ∧ spaFallback = (200, "index.html")
      ∧ spaFallback.1 ≠ 404
      ∧ dispatchGet ["/app.js", "/styles.css"] "/api/health" = RouteTarget.health
      ∧ dispatchGet ["/app.js", "/styles.css"] "/api/keys" = RouteTarget.keysEndpoint
      ∧ appLayers.indexOf Layer.healthRoute < appLayers.indexOf Layer.catchAllRoute
      ∧ appLayers.indexOf Layer.keysRoute < appLayers.indexOf Layer.catchAllRoute) :=
  ⟨by decide, by decide, by decide, by decide, by decide,
   c8_spa_fallback_no_shadow ["/app.js", "/styles.css"] "/consult/history"
     (by decide) (by decide) (by decide) (by decide) (by decide)⟩

/-- C9: a request body larger than the configured 10 MB ceiling is rejected by
the body-parser stage, which is registered before every route handler, so no
handler body ever runs for an oversized request. -/
theorem c9_oversized_body_rejected
    (bodyBytes : Nat) (h : mbLimitBytes < bodyBytes) :
    bodyAdmission bodyBytes = ParseResult.rejectedByParser
    ∧ bodyAdmission bodyBytes ≠ ParseResult.reachesRouter
    ∧ appLayers.indexOf Layer.jsonParser < appLayers.indexOf Layer.healthRoute
    ∧ appLayers.indexOf Layer.jsonParser < appLayers.indexOf Layer.keysRoute
    ∧ appLayers.indexOf Layer.jsonParser < appLayers.indexOf Layer.catchAllRoute
    ∧ appLayers.indexOf Layer.urlencodedParser < appLayers.indexOf Layer.healthRoute
    ∧ appLayers.indexOf Layer.urlencodedParser < appLayers.indexOf Layer.keysRoute := by
  refine ⟨?_, ?_, by decide, by decide, by decide, by decide, by decide⟩
  · simp [bodyAdmission, h]
  · simp [bodyAdmission, h]

/-- Witness for C9 one byte over the ceiling. -/
theorem c9_oversized_body_rejected_witness :
    mbLimitBytes < 10 * 1024 * 1024 + 1
    ∧ (bodyAdmission (10 * 1024 * 1024 + 1) = ParseResult.rejectedByParser
      ∧ bodyAdmission (10 * 1024 * 1024 + 1) ≠ ParseResult.reachesRouter
      ∧ appLayers.indexOf Layer.jsonParser < appLayers.indexOf Layer.healthRoute
      ∧ appLayers.indexOf Layer.jsonParser < appLayers.indexOf Layer.keysRoute
      ∧ appLayers.indexOf Layer.jsonParser < appLayers.indexOf Layer.catchAllRoute
      ∧ appLayers.indexOf Layer.urlencodedParser < appLayers.indexOf Layer.healthRoute
      ∧ appLayers.indexOf Layer.urlencodedParser < appLayers.indexOf Layer.keysRoute) :=
  ⟨by decide, c9_oversized_body_rejected (10 * 1024 * 1024 + 1) (by decide)⟩

end ArogyaAI
